import Mathlib

/-!
Shallow embedding of the NeuralMix P2P synchronization and signal-routing
engine: the AudioSync class (audioSync.js, reproduced in INTEGRATION.md) and
the AnalogDeck / TimecodeDetector classes (analogDeck.js).

Modelling conventions:
- JavaScript numbers are embedded as exact rationals.
- The mutable AudioSync object becomes an explicit AudioSyncState that every
  method threads through; the ambient WebAudio clock audioContext.currentTime
  becomes an explicit `now` argument.
- The JS Map of decks is a function from deck id to Option Deck; WebAudio node
  parameters that a deck owns (gain, EQ filter gains, the playback rate of the
  live buffer source) are stored as fields of Deck.
- Fired callbacks are returned as explicit event lists.
-/

namespace NeuralMix

/-- JS truthiness disjunction on numbers: a || b evaluates to b when a is 0
(falsy) and to a otherwise. -/
def jsOr (a b : ℚ) : ℚ := if a = 0 then b else a

/-- JS Math.round: round half toward positive infinity. -/
def jsRound (x : ℚ) : ℤ := ⌊x + 1/2⌋

/-- Value of the IEEE-754 double Math.PI, as an exact rational. -/
def jsPI : ℚ := 884279719003555 / 281474976710656

/-- Decoded audio buffer: per-channel sample lists, sample rate, duration. -/
structure AudioBuffer where
  channels : List (List ℚ)
  sampleRate : ℚ
  duration : ℚ
deriving DecidableEq

/-- One deck of the AudioSync engine (the object literal built in createDeck).
hasSource models whether deck.source currently holds a buffer source node;
sourceRate is the playbackRate value last applied to that live node; volume is
the gain of gainNode; eqHigh, eqMid and eqLow are the gains of the three
BiquadFilter nodes. -/
structure Deck where
  id : String
  hasSource : Bool
  buffer : Option AudioBuffer
  isPlaying : Bool
  currentTime : ℚ
  startTime : ℚ
  bpm : ℚ
  duration : ℚ
  playbackRate : ℚ
  sourceRate : ℚ
  volume : ℚ
  eqHigh : ℚ
  eqMid : ℚ
  eqLow : ℚ
deriving DecidableEq

/-- The field values of a freshly created deck (createDeck in audioSync.js):
no source, no buffer, stopped at position 0, bpm 0, rate 1.0; the gain node is
created with gain 1 and the three EQ filters are initialised to 0 dB. -/
def initialDeck (deckId : String) : Deck :=
  { id := deckId
    hasSource := false
    buffer := none
    isPlaying := false
    currentTime := 0
    startTime := 0
    bpm := 0
    duration := 0
    playbackRate := 1
    sourceRate := 1
    volume := 1
    eqHigh := 0
    eqMid := 0
    eqLow := 0 }

/-- The syncState object of AudioSync. -/
structure SyncState where
  masterDeck : Option String
  syncEnabled : Bool
  bpmOffset : ℚ
deriving DecidableEq

/-- Mutable state of one AudioSync instance: the deck map and the sync state. -/
structure AudioSyncState where
  decks : String → Option Deck
  syncState : SyncState

/-- Payload of the onSyncUpdate callback. -/
structure SyncUpdateData where
  master : String
  slave : String
  masterBPM : ℚ
  slaveBPM : ℚ
  adjustedRate : ℚ
  synced : Bool
deriving DecidableEq

/-- Notifications emitted toward the UI layer. -/
inductive AudioSyncEvent
  | syncUpdate (data : SyncUpdateData)
deriving DecidableEq

/-- Result object of syncDecks: either the success object with success true,
masterBPM, slaveBPM and playbackRate fields, or the failure object with
success false and a reason field. -/
inductive SyncResult
  | ok (masterBPM slaveBPM playbackRate : ℚ)
  | failure (reason : String)
deriving DecidableEq

/-- The success field of a syncDecks result object. -/
def SyncResult.success : SyncResult → Bool
  | SyncResult.ok _ _ _ => true
  | SyncResult.failure _ => false

/-- Lookup this.decks.get(deckId). -/
def getDeck (st : AudioSyncState) (deckId : String) : Option Deck :=
  st.decks deckId

/-- In-place mutation of the deck stored under deckId, when present. -/
def updateDeck (st : AudioSyncState) (deckId : String) (f : Deck → Deck) :
    AudioSyncState :=
  { st with decks := fun k => if k = deckId then (st.decks k).map f else st.decks k }

/-- AudioSync.createDeck: idempotent, returns the existing deck when the id is
taken, otherwise inserts a fresh deck. -/
def createDeck (st : AudioSyncState) (deckId : String) : Deck × AudioSyncState :=
  match getDeck st deckId with
  | some deck => (deck, st)
  | none =>
    let deck := initialDeck deckId
    (deck, { st with decks := fun k => if k = deckId then some deck else st.decks k })

/-- AudioSync.play: returns false when the deck is unknown or has no buffer;
otherwise replaces any existing source, starts at offset || currentTime || 0,
records startTime = now - startOffset and marks the deck playing. The JS
default for the offset parameter is 0. -/
def play (st : AudioSyncState) (deckId : String) (offset : ℚ) (now : ℚ) :
    Bool × AudioSyncState :=
  match getDeck st deckId with
  | none => (false, st)
  | some deck =>
    match deck.buffer with
    | none => (false, st)
    | some _ =>
      let startOffset := jsOr offset (jsOr deck.currentTime 0)
      (true, updateDeck st deckId fun _ =>
        { deck with
          hasSource := true
          sourceRate := deck.playbackRate
          isPlaying := true
          startTime := now - startOffset })

/-- AudioSync.pause: returns false when the deck is unknown or not playing;
otherwise freezes currentTime = now - startTime, releases the source and marks
the deck paused. -/
def pause (st : AudioSyncState) (deckId : String) (now : ℚ) :
    Bool × AudioSyncState :=
  match getDeck st deckId with
  | none => (false, st)
  | some deck =>
    if deck.isPlaying then
      (true, updateDeck st deckId fun _ =>
        { deck with
          currentTime := now - deck.startTime
          hasSource := false
          isPlaying := false })
    else (false, st)

/-- AudioSync.stop: halts the source and resets the position to 0. -/
def stop (st : AudioSyncState) (deckId : String) : Bool × AudioSyncState :=
  match getDeck st deckId with
  | none => (false, st)
  | some deck =>
    (true, updateDeck st deckId fun _ =>
      { deck with hasSource := false, isPlaying := false, currentTime := 0 })

/-- AudioSync.setVolume: clamps into the unit interval and applies to the gain
node of the deck; no-op on an unknown deck. -/
def setVolume (st : AudioSyncState) (deckId : String) (volume : ℚ) :
    AudioSyncState :=
  match getDeck st deckId with
  | none => st
  | some _ =>
    let clampedVolume := max 0 (min 1 volume)
    updateDeck st deckId fun deck => { deck with volume := clampedVolume }

/-- AudioSync.setEQ: clamps the gain into the dB range -40 to 40 and applies it
to the filter selected by the band name; unknown bands and unknown decks are
no-ops. -/
def setEQ (st : AudioSyncState) (deckId : String) (band : String) (gain : ℚ) :
    AudioSyncState :=
  match getDeck st deckId with
  | none => st
  | some _ =>
    let clampedGain := max (-40) (min 40 gain)
    if band = "high" then
      updateDeck st deckId fun deck => { deck with eqHigh := clampedGain }
    else if band = "mid" then
      updateDeck st deckId fun deck => { deck with eqMid := clampedGain }
    else if band = "low" then
      updateDeck st deckId fun deck => { deck with eqLow := clampedGain }
    else st

/-- AudioSync.setPlaybackRate: clamps the rate into the range 0.5 to 2.0,
stores it on the deck, and also applies it to the live source when one is
active and the deck is playing; no-op on an unknown deck. -/
def setPlaybackRate (st : AudioSyncState) (deckId : String) (rate : ℚ) :
    AudioSyncState :=
  match getDeck st deckId with
  | none => st
  | some _ =>
    let clampedRate := max (1/2) (min 2 rate)
    updateDeck st deckId fun deck =>
      let deck1 := { deck with playbackRate := clampedRate }
      if deck1.hasSource && deck1.isPlaying then
        { deck1 with sourceRate := clampedRate }
      else deck1

/-- AudioSync.getCurrentTime: 0 for an unknown deck; now - startTime while
playing; the frozen currentTime otherwise. -/
def getCurrentTime (st : AudioSyncState) (deckId : String) (now : ℚ) : ℚ :=
  match getDeck st deckId with
  | none => 0
  | some deck =>
    if deck.isPlaying then now - deck.startTime else deck.currentTime

/-- AudioSync.syncDecks: fails with reason missing_bpm when either deck is
absent or has a falsy (zero) bpm, without touching any state and without
firing onSyncUpdate; otherwise multiplies the slave rate by the bpm ratio,
applies it through setPlaybackRate, overwrites syncState and fires one
onSyncUpdate notification. -/
def syncDecks (st : AudioSyncState) (masterDeckId slaveDeckId : String) :
    SyncResult × AudioSyncState × List AudioSyncEvent :=
  match getDeck st masterDeckId, getDeck st slaveDeckId with
  | some masterDeck, some slaveDeck =>
    if masterDeck.bpm = 0 ∨ slaveDeck.bpm = 0 then
      (SyncResult.failure "missing_bpm", st, [])
    else
      let bpmR := masterDeck.bpm / slaveDeck.bpm
      let adjustedRate := slaveDeck.playbackRate * bpmR
      let st1 := setPlaybackRate st slaveDeckId adjustedRate
      let st2 := { st1 with syncState :=
        { masterDeck := some masterDeckId
          syncEnabled := true
          bpmOffset := masterDeck.bpm - slaveDeck.bpm } }
      (SyncResult.ok masterDeck.bpm slaveDeck.bpm adjustedRate, st2,
        [AudioSyncEvent.syncUpdate
          { master := masterDeckId
            slave := slaveDeckId
            masterBPM := masterDeck.bpm
            slaveBPM := slaveDeck.bpm
            adjustedRate := adjustedRate
            synced := true }])
  | _, _ => (SyncResult.failure "missing_bpm", st, [])

/-- AudioSync.lowPassFilter: the single-pole recurrence
filtered i = filtered (i-1) + alpha * (data i - filtered (i-1)), with
alpha = dt / (RC + dt), RC = 1 / (2 pi cutoff), dt = 1 / sampleRate, and
filtered 0 = data 0. -/
def lowPassFilter (data : List ℚ) (sampleRate cutoffFreq : ℚ) : List ℚ :=
  let RC := 1 / (2 * jsPI * cutoffFreq)
  let dt := 1 / sampleRate
  let alpha := dt / (RC + dt)
  match data with
  | [] => []
  | d0 :: rest =>
    ((rest.foldl (fun acc x =>
        let y := acc.2 + alpha * (x - acc.2)
        (y :: acc.1, y)) ([d0], d0)).1).reverse

/-- Mean of the squared samples. AudioSync.calculateThreshold computes the
threshold as 1.5 times the square root of this mean; since that square root
is in general irrational, comparisons against the threshold are embedded
below in the equivalent squared form. -/
def meanSquare (data : List ℚ) : ℚ :=
  (data.foldl (fun s x => s + x * x) 0) / data.length

/-- Whether a sample exceeds the adaptive threshold of calculateThreshold,
that is x is greater than 1.5 times the square root of meanSq, written in the
equivalent squared form (meanSq is a mean of squares, hence nonnegative, so
the two comparisons agree). -/
def exceedsThreshold (x meanSq : ℚ) : Bool :=
  decide (0 < x ∧ (3/2) ^ 2 * meanSq < x ^ 2)

/-- AudioSync.detectPeaks: scans indices 1 to length - 2 for local maxima
above the adaptive threshold, keeping at least minPeakDistance samples
(300 ms) between accepted peaks; returns the accepted peak times in seconds.
lastPeak starts at -minPeakDistance so the first peak is never rejected by
the distance test. -/
def detectPeaks (data : List ℚ) (sampleRate : ℚ) : List ℚ :=
  let minPeakDistance : ℤ := ⌊sampleRate * (3/10)⌋
  let meanSq := meanSquare data
  let n := data.length
  ((List.range n).foldl (fun acc i =>
      if 1 ≤ i ∧ i + 1 < n ∧
          exceedsThreshold (data.getD i 0) meanSq = true ∧
          data.getD (i - 1) 0 < data.getD i 0 ∧
          data.getD (i + 1) 0 < data.getD i 0 ∧
          minPeakDistance ≤ (i : ℤ) - acc.2 then
        (acc.1 ++ [(i : ℚ) / sampleRate], (i : ℤ))
      else acc) ([], -minPeakDistance)).1

/-- buffer.getChannelData: the sample list of the requested channel, or a
thrown error when the channel index is out of range. -/
def getChannelData (buffer : AudioBuffer) (channel : ℕ) :
    Except String (List ℚ) :=
  match buffer.channels.get? channel with
  | some data => Except.ok data
  | none => Except.error "channel index out of range"

/-- Time deltas between consecutive accepted peaks. -/
def peakIntervals (peaks : List ℚ) : List ℚ :=
  (peaks.zip peaks.tail).map fun p => p.2 - p.1

/-- Body of the try block of AudioSync.detectBPM: extract channel 0, low-pass
filter at 200 Hz, detect peaks, and reduce the sorted peak intervals to
round (60 / medianInterval) clamped into 60 to 200; 120 when fewer than two
peaks were found. An error of getChannelData propagates as a thrown
exception. -/
def detectBPMTry (buffer : AudioBuffer) : Except String ℤ :=
  match getChannelData buffer 0 with
  | Except.error e => Except.error e
  | Except.ok audioData =>
    let sampleRate := buffer.sampleRate
    let filtered := lowPassFilter audioData sampleRate 200
    let peaks := detectPeaks filtered sampleRate
    let intervals := peakIntervals peaks
    if intervals.length = 0 then
      Except.ok 120
    else
      let sorted := intervals.mergeSort (fun a b => decide (a ≤ b))
      let medianInterval := sorted.getD (intervals.length / 2) 0
      let bpm := jsRound (60 / medianInterval)
      Except.ok (max 60 (min 200 bpm))

/-- AudioSync.detectBPM: the try block result, with any thrown exception
caught and degraded to the default 120. -/
def detectBPM (buffer : AudioBuffer) : ℤ :=
  match detectBPMTry buffer with
  | Except.ok bpm => bpm
  | Except.error _ => 120

/-- One decoded timecode sample of the TimecodeDetector. -/
structure TimecodeData where
  position : ℚ
  speed : ℚ
  direction : String
  quality : ℚ
deriving DecidableEq

/-- Emission logic of one TimecodeDetector.detect cycle: freqData is the byte
frequency snapshot of the analyser; rand1, rand2 and rand3 are the three
Math.random draws that simulate position, speed and direction. A sample is
emitted only when the average level exceeds 50, with quality
min 100 (avgLevel * 2). -/
def TimecodeDetector.detect (freqData : List ℕ) (rand1 rand2 rand3 : ℚ) :
    Option TimecodeData :=
  let avgLevel : ℚ := (freqData.sum : ℚ) / freqData.length
  if 50 < avgLevel then
    some
      { position := rand1 * 1000
        speed := 1 + (rand2 - 1/2) * (2/10)
        direction := if 1/2 < rand3 then "forward" else "backward"
        quality := min 100 (avgLevel * 2) }
  else none

/-- AnalogDeck.applyDVSControl: no-op when the deck is unknown or has no live
source; otherwise sets the playback rate to the absolute vinyl speed, and for
a backward sample on a playing deck additionally requests the 0.1 crawl rate
through setPlaybackRate. -/
def applyDVSControl (st : AudioSyncState) (deckId : String)
    (timecodeData : TimecodeData) : AudioSyncState :=
  match getDeck st deckId with
  | none => st
  | some deck =>
    if deck.hasSource = false then st
    else
      let rate := timecodeData.speed *
        (if timecodeData.direction = "forward" then 1 else -1)
      let st1 := setPlaybackRate st deckId |rate|
      if timecodeData.direction = "backward" ∧ deck.isPlaying = true then
        setPlaybackRate st1 deckId (1/10)
      else st1

/-- One entry of the MIDI mapping table of AnalogDeck. -/
structure MIDIMapping where
  inputId : String
  note : ℕ
  action : String
  deckId : String
  parameter : Option String
deriving DecidableEq

/-- One normalized MIDI event as built by handleMIDIMessage. -/
structure MIDIEvent where
  inputId : String
  command : String
  channel : ℕ
  note : ℕ
  velocity : ℕ
  value : ℚ
  timestamp : ℚ
deriving DecidableEq

/-- Key of the midiMappings map: inputId, a dash, and the note number. -/
def mappingKey (inputId : String) (note : ℕ) : String :=
  inputId ++ "-" ++ toString note

/-- AnalogDeck.applyMIDIMapping: looks up the mapping for the event key and
dispatches on the mapped action; play and pause react only to noteon events;
volume, eq and pitch forward into the AudioSync setters; crossfader, cue,
hotcue and unknown actions leave the state unchanged. The midiMappings map is
modelled as a function from key to optional mapping. -/
def applyMIDIMapping (mappings : String → Option MIDIMapping)
    (st : AudioSyncState) (midiEvent : MIDIEvent) (now : ℚ) : AudioSyncState :=
  match mappings (mappingKey midiEvent.inputId midiEvent.note) with
  | none => st
  | some mapping =>
    if mapping.action = "play" then
      if midiEvent.command = "noteon" then (play st mapping.deckId 0 now).2 else st
    else if mapping.action = "pause" then
      if midiEvent.command = "noteon" then (pause st mapping.deckId now).2 else st
    else if mapping.action = "volume" then
      setVolume st mapping.deckId midiEvent.value
    else if mapping.action = "crossfader" then st
    else if mapping.action = "eq" then
      let gain := (midiEvent.value - 1/2) * 24
      setEQ st mapping.deckId (mapping.parameter.getD "") gain
    else if mapping.action = "pitch" then
      let pitchRange : ℚ := 16/100
      let pitchValue := 1 + (midiEvent.value - 1/2) * 2 * pitchRange
      setPlaybackRate st mapping.deckId pitchValue
    else st

/-- Gain of the EQ filter selected by a band name (0 for unknown bands). -/
def Deck.eqGain (deck : Deck) (band : String) : ℚ :=
  if band = "high" then deck.eqHigh
  else if band = "mid" then deck.eqMid
  else if band = "low" then deck.eqLow
  else 0

/-! Concrete states used to instantiate the theorems below. -/

/-- A small all-zero test buffer. -/
def exBuffer : AudioBuffer := { channels := [[0, 0, 0, 0]], sampleRate := 4, duration := 1 }

/-- A buffer with no channels: getChannelData 0 throws on it. -/
def exBufferNoChannels : AudioBuffer := { channels := [], sampleRate := 44100, duration := 0 }

/-- The initial sync state of the AudioSync constructor. -/
def initialSyncState : SyncState := { masterDeck := none, syncEnabled := false, bpmOffset := 0 }

/-- A state holding only the freshly created deck a. -/
def exStateA : AudioSyncState :=
  { decks := fun k => if k = "a" then some (initialDeck "a") else none
    syncState := initialSyncState }

/-- Deck a with the test buffer loaded. -/
def exDeckLoaded : Deck := { initialDeck "a" with buffer := some exBuffer, duration := 1 }

/-- A state holding only the loaded deck a. -/
def exStateLoaded : AudioSyncState :=
  { decks := fun k => if k = "a" then some exDeckLoaded else none
    syncState := initialSyncState }

/-- Deck a at 128 BPM. -/
def exDeckMaster : Deck := { initialDeck "a" with bpm := 128 }

/-- Deck b at 124 BPM. -/
def exDeckSlave : Deck := { initialDeck "b" with bpm := 124 }

/-- A state holding decks a (128 BPM) and b (124 BPM), both at rate 1.0. -/
def exStateSync : AudioSyncState :=
  { decks := fun k =>
      if k = "a" then some exDeckMaster
      else if k = "b" then some exDeckSlave else none
    syncState := initialSyncState }

/-- A state with no decks at all. -/
def exStateEmpty : AudioSyncState :=
  { decks := fun _ => none, syncState := initialSyncState }

/-- Deck a loaded, playing, with a live source. -/
def exDeckPlaying : Deck :=
  { initialDeck "a" with
    buffer := some exBuffer, duration := 1, hasSource := true, isPlaying := true }

/-- A state holding only the playing deck a. -/
def exStateDVS : AudioSyncState :=
  { decks := fun k => if k = "a" then some exDeckPlaying else none
    syncState := initialSyncState }

/-- A backward timecode sample at nominal speed. -/
def exTimecodeBackward : TimecodeData :=
  { position := 0, speed := 1, direction := "backward", quality := 100 }

/-- Deck a loaded and paused at position 7. -/
def exDeckPaused : Deck :=
  { initialDeck "a" with buffer := some exBuffer, duration := 1, currentTime := 7 }

/-- A state holding only the paused deck a. -/
def exStatePaused : AudioSyncState :=
  { decks := fun k => if k = "a" then some exDeckPaused else none
    syncState := initialSyncState }

/-- A mapping of controller note 16 onto the high EQ band of deck a. -/
def exMapping : MIDIMapping :=
  { inputId := "ctrl", note := 16, action := "eq", deckId := "a", parameter := some "high" }

/-- A mapping table holding only exMapping. -/
def exMappings : String → Option MIDIMapping :=
  fun k => if k = "ctrl-16" then some exMapping else none

/-- A control-change event on note 16 with maximal normalized value. -/
def exMIDIEvent : MIDIEvent :=
  { inputId := "ctrl", command := "controlchange", channel := 0, note := 16
    velocity := 127, value := 1, timestamp := 0 }

/-! Helper lemmas shared by the claim theorems. -/

/-- Updating a deck in place is observed by a lookup of the same id as mapping
the stored deck. -/
theorem getDeck_updateDeck (st : AudioSyncState) (deckId : String) (f : Deck → Deck) :
    getDeck (updateDeck st deckId f) deckId = (getDeck st deckId).map f := by
  simp [getDeck, updateDeck]

/-- setPlaybackRate stores the clamped rate on an existing deck. -/
theorem setPlaybackRate_rate (st : AudioSyncState) (deckId : String) (deck : Deck)
    (h : getDeck st deckId = some deck) (rate : ℚ) :
    (getDeck (setPlaybackRate st deckId rate) deckId).map Deck.playbackRate
      = some (max (1/2) (min 2 rate)) := by
  simp only [setPlaybackRate, h, getDeck_updateDeck, Option.map_map]
  simp only [Option.map, Function.comp]
  split <;> rfl

/-- setPlaybackRate keeps an existing deck present. -/
theorem setPlaybackRate_isSome (st : AudioSyncState) (deckId : String) (deck : Deck)
    (h : getDeck st deckId = some deck) (rate : ℚ) :
    ∃ deck1, getDeck (setPlaybackRate st deckId rate) deckId = some deck1 := by
  simp only [setPlaybackRate, h, getDeck_updateDeck]
  exact ⟨_, rfl⟩

/-! Claim theorems. -/

/-- C6: for every existing deck, setPlaybackRate clamps its argument into the
range 0.5 to 2.0 before storing it; in particular requesting 3.0 stores an
effective rate of 2.0 and requesting 0.1 stores an effective rate of 0.5. -/
theorem setPlaybackRate_clamps (st : AudioSyncState) (deckId : String) (deck : Deck)
    (h : getDeck st deckId = some deck) :
    (∀ rate, (getDeck (setPlaybackRate st deckId rate) deckId).map Deck.playbackRate
        = some (max (1/2) (min 2 rate)))
    ∧ (getDeck (setPlaybackRate st deckId 3) deckId).map Deck.playbackRate = some 2
    ∧ (getDeck (setPlaybackRate st deckId (1/10)) deckId).map Deck.playbackRate = some (1/2) := by
  refine ⟨fun rate => setPlaybackRate_rate st deckId deck h rate, ?_, ?_⟩
  · rw [setPlaybackRate_rate st deckId deck h 3]
    norm_num
  · rw [setPlaybackRate_rate st deckId deck h (1/10)]
    norm_num

/-- Witness for C6 at the concrete one-deck state exStateA. -/
theorem setPlaybackRate_clamps_witness :
    (getDeck (setPlaybackRate exStateA "a" 3) "a").map Deck.playbackRate = some 2
    ∧ (getDeck (setPlaybackRate exStateA "a" (1/10)) "a").map Deck.playbackRate = some (1/2) :=
  ⟨(setPlaybackRate_clamps exStateA "a" (initialDeck "a") (by rfl)).2.1,
   (setPlaybackRate_clamps exStateA "a" (initialDeck "a") (by rfl)).2.2⟩

/-- C2: for two existing decks with master BPM 128, slave BPM 124 and slave
rate 1.0, syncDecks succeeds and returns the success object carrying
masterBPM 128, slaveBPM 124 and the applied rate 128 / 124 in its rate
field. -/
theorem syncDecks_contract_128_124 (st : AudioSyncState) (m s : String)
    (dm ds : Deck) (hm : getDeck st m = some dm) (hs : getDeck st s = some ds)
    (hbm : dm.bpm = 128) (hbs : ds.bpm = 124) (hr : ds.playbackRate = 1) :
    (syncDecks st m s).1 = SyncResult.ok 128 124 (128 / 124)
    ∧ ((syncDecks st m s).1).success = true := by
  have hres : (syncDecks st m s).1 = SyncResult.ok 128 124 (128 / 124) := by
    simp only [syncDecks, hm, hs, hbm, hbs, hr]
    norm_num
  exact ⟨hres, by rw [hres]; rfl⟩

/-- Witness for C2 at the concrete two-deck state exStateSync. -/
theorem syncDecks_contract_128_124_witness :
    (syncDecks exStateSync "a" "b").1 = SyncResult.ok 128 124 (128 / 124)
    ∧ ((syncDecks exStateSync "a" "b").1).success = true :=
  syncDecks_contract_128_124 exStateSync "a" "b" exDeckMaster exDeckSlave
    (by rfl) (by rfl) (by rfl) (by rfl) (by rfl)

/-- C3: when either deck is missing or has estimated BPM 0, syncDecks returns
the failure object with reason missing_bpm, leaves the whole state (deck
rates and sync state) unchanged, and emits no sync-update notification. -/
theorem syncDecks_missing_bpm (st : AudioSyncState) (m s : String)
    (h : getDeck st m = none ∨ getDeck st s = none
       ∨ (∃ dm, getDeck st m = some dm ∧ dm.bpm = 0)
       ∨ (∃ ds, getDeck st s = some ds ∧ ds.bpm = 0)) :
    syncDecks st m s = (SyncResult.failure "missing_bpm", st, []) := by
  rcases h with hm | hs | ⟨dm, hm, hbm⟩ | ⟨ds, hs, hbs⟩
  · simp [syncDecks, hm]
  · cases hm : getDeck st m <;> simp [syncDecks, hm, hs]
  · cases hs : getDeck st s <;> simp [syncDecks, hm, hs, hbm]
  · cases hm : getDeck st m <;> simp [syncDecks, hm, hs, hbs]

/-- Witness for C3 at the deckless state exStateEmpty. -/
theorem syncDecks_missing_bpm_witness :
    syncDecks exStateEmpty "a" "b" = (SyncResult.failure "missing_bpm", exStateEmpty, []) :=
  syncDecks_missing_bpm exStateEmpty "a" "b" (Or.inl rfl)

/-- Every value the try block of detectBPM returns without throwing lies in
the clamped range 60 to 200. -/
theorem detectBPMTry_ok_range (buffer : AudioBuffer) (bpm : ℤ)
    (h : detectBPMTry buffer = Except.ok bpm) : 60 ≤ bpm ∧ bpm ≤ 200 := by
  unfold detectBPMTry at h
  cases hch : getChannelData buffer 0 with
  | error e => rw [hch] at h; exact absurd h (by simp)
  | ok audioData =>
    rw [hch] at h
    simp only at h
    split at h
    · cases h
      omega
    · cases h
      constructor
      · exact le_max_left 60 _
      · exact max_le (by omega) (min_le_left 200 _)

/-- C4: detectBPM always returns an integer (its result type) lying between
60 and 200 inclusive, on every input buffer. -/
theorem detectBPM_range (buffer : AudioBuffer) :
    60 ≤ detectBPM buffer ∧ detectBPM buffer ≤ 200 := by
  cases htry : detectBPMTry buffer with
  | ok bpm =>
    have hb := detectBPMTry_ok_range buffer bpm htry
    unfold detectBPM
    rw [htry]
    exact hb
  | error e =>
    unfold detectBPM
    rw [htry]
    exact ⟨by norm_num, by norm_num⟩

/-- With fewer than two peaks there are no peak intervals at all. -/
theorem peakIntervals_nil (peaks : List ℚ) (h : peaks.length < 2) :
    (peakIntervals peaks).length = 0 := by
  match peaks, h with
  | [], _ => rfl
  | [a], _ => rfl

/-- C5: detectBPM returns exactly the default 120 whenever peak detection
finds fewer than two peaks, and whenever the try block throws (here: the
buffer has no channel 0) the exception is caught inside detectBPM, which
returns 120 instead of propagating it. -/
theorem detectBPM_default_120 (buffer : AudioBuffer) :
    (∀ audioData, getChannelData buffer 0 = Except.ok audioData →
      (detectPeaks (lowPassFilter audioData buffer.sampleRate 200)
          buffer.sampleRate).length < 2 →
      detectBPM buffer = 120)
    ∧ (∀ e, detectBPMTry buffer = Except.error e → detectBPM buffer = 120) := by
  constructor
  · intro audioData hch hpeaks
    have htry : detectBPMTry buffer = Except.ok 120 := by
      unfold detectBPMTry
      rw [hch]
      simp [peakIntervals_nil _ hpeaks]
    unfold detectBPM
    rw [htry]
  · intro e htry
    unfold detectBPM
    rw [htry]

/-- Witness for C5: the all-zero buffer yields no peaks and defaults to 120,
and the channelless buffer makes getChannelData throw, which detectBPM
catches and turns into 120. -/
theorem detectBPM_default_120_witness :
    detectBPM exBuffer = 120 ∧ detectBPM exBufferNoChannels = 120 :=
  ⟨(detectBPM_default_120 exBuffer).1 [0, 0, 0, 0] (by rfl)
      (by
        have h0 : (detectPeaks (lowPassFilter [0, 0, 0, 0] exBuffer.sampleRate 200)
            exBuffer.sampleRate).length = 0 := by
          have hlp : lowPassFilter [0, 0, 0, 0] exBuffer.sampleRate 200 = [0, 0, 0, 0] := by
            norm_num [lowPassFilter, exBuffer]
          rw [hlp]
          norm_num [detectPeaks, meanSquare, exceedsThreshold, List.range_succ, exBuffer]
        omega),
   (detectBPM_default_120 exBufferNoChannels).2 "channel index out of range" (by rfl)⟩

/-- C7: playing a loaded deck from offset 10 at clock time t0 and pausing at
clock time t1 freezes the position at 10 plus the elapsed time t1 - t0 (the
model treats the audio clock exactly, so the scheduler tolerance is 0);
getCurrentTime then reports that position, and a subsequent play with the JS
default offset 0 resumes playback from exactly that paused position. -/
theorem play_pause_round_trip (st : AudioSyncState) (d : String) (deck : Deck)
    (buf : AudioBuffer) (t0 t1 t2 t3 : ℚ)
    (hd : getDeck st d = some deck) (hbuf : deck.buffer = some buf)
    (h01 : t0 ≤ t1) :
    (play st d 10 t0).1 = true
    ∧ (pause (play st d 10 t0).2 d t1).1 = true
    ∧ getCurrentTime (pause (play st d 10 t0).2 d t1).2 d t2 = 10 + (t1 - t0)
    ∧ getCurrentTime (play (pause (play st d 10 t0).2 d t1).2 d 0 t3).2 d t3
        = 10 + (t1 - t0) := by
  have hjs10 : jsOr 10 (jsOr deck.currentTime 0) = 10 := by
    unfold jsOr
    norm_num
  have hplay : play st d 10 t0 = (true, updateDeck st d fun _ =>
      { deck with
        hasSource := true
        sourceRate := deck.playbackRate
        isPlaying := true
        startTime := t0 - 10 }) := by
    simp only [play, hd, hbuf]
    rw [hjs10]
  have hd1 : getDeck (play st d 10 t0).2 d = some
      { deck with
        hasSource := true
        sourceRate := deck.playbackRate
        isPlaying := true
        startTime := t0 - 10 } := by
    rw [hplay, getDeck_updateDeck, hd, Option.map_some']
  have hpause : pause (play st d 10 t0).2 d t1
      = (true, updateDeck (play st d 10 t0).2 d fun _ =>
        { deck with
          hasSource := false
          sourceRate := deck.playbackRate
          isPlaying := false
          currentTime := t1 - (t0 - 10)
          startTime := t0 - 10 }) := by
    simp only [pause, hd1, if_true]
  have hd2 : getDeck (pause (play st d 10 t0).2 d t1).2 d = some
      { deck with
        hasSource := false
        sourceRate := deck.playbackRate
        isPlaying := false
        currentTime := t1 - (t0 - 10)
        startTime := t0 - 10 } := by
    rw [hpause, getDeck_updateDeck, hd1, Option.map_some']
  have hpos : (10 : ℚ) + (t1 - t0) = t1 - (t0 - 10) := by ring
  refine ⟨by rw [hplay], by rw [hpause], ?_, ?_⟩
  · simp only [getCurrentTime, hd2]
    norm_num
    rw [hpos]
  · have hnz : t1 - (t0 - 10) ≠ 0 := by
      intro hcontra
      have : (10 : ℚ) + (t1 - t0) = 0 := by rw [hpos, hcontra]
      linarith
    have hjs0 : jsOr 0 (jsOr (t1 - (t0 - 10)) 0) = t1 - (t0 - 10) := by
      unfold jsOr
      rw [if_pos rfl, if_neg hnz]
    have key : ∀ stX : AudioSyncState, getDeck stX d = some
        { deck with
          hasSource := false
          sourceRate := deck.playbackRate
          isPlaying := false
          currentTime := t1 - (t0 - 10)
          startTime := t0 - 10 } →
        getCurrentTime (play stX d 0 t3).2 d t3 = 10 + (t1 - t0) := by
      intro stX hdX
      have hplay2 : play stX d 0 t3 = (true, updateDeck stX d fun _ =>
          { deck with
            hasSource := true
            sourceRate := deck.playbackRate
            isPlaying := true
            currentTime := t1 - (t0 - 10)
            startTime := t3 - (t1 - (t0 - 10)) }) := by
        simp only [play, hdX, hbuf]
        rw [hjs0]
      have hd3 : getDeck (play stX d 0 t3).2 d = some
          { deck with
            hasSource := true
            sourceRate := deck.playbackRate
            isPlaying := true
            currentTime := t1 - (t0 - 10)
            startTime := t3 - (t1 - (t0 - 10)) } := by
        rw [hplay2, getDeck_updateDeck, hdX, Option.map_some']
      simp only [getCurrentTime, hd3]
      norm_num
      rw [hpos]
    exact key (pause (play st d 10 t0).2 d t1).2 hd2

/-- Witness for C7 at the loaded one-deck state exStateLoaded with t0 = 0,
t1 = 5, t2 = 9 and t3 = 12: the paused position is 10 + (5 - 0). -/
theorem play_pause_round_trip_witness :
    getCurrentTime (pause (play exStateLoaded "a" 10 0).2 "a" 5).2 "a" 9 = 10 + (5 - 0)
    ∧ getCurrentTime (play (pause (play exStateLoaded "a" 10 0).2 "a" 5).2 "a" 0 12).2 "a" 12
        = 10 + (5 - 0) := by
  have h := play_pause_round_trip exStateLoaded "a" exDeckLoaded exBuffer 0 5 9 12
    (by rfl) (by rfl) (by norm_num)
  exact ⟨h.2.2.1, h.2.2.2⟩

/-- C9: on a deck paused at a position p greater than 0, play with the
explicit offset argument 0 resumes from p rather than from the start of the
track, because the start offset is computed as offset || currentTime || 0 and
an explicit 0 is falsy; in the model the omitted offset is the same call with
the JS default 0, so the two are indistinguishable. -/
theorem play_zero_offset_resumes (st : AudioSyncState) (d : String) (deck : Deck)
    (buf : AudioBuffer) (p now : ℚ)
    (hd : getDeck st d = some deck) (hbuf : deck.buffer = some buf)
    (_hpaused : deck.isPlaying = false) (hpos : deck.currentTime = p) (hp : 0 < p) :
    (play st d 0 now).1 = true
    ∧ (getDeck (play st d 0 now).2 d).map Deck.startTime = some (now - p)
    ∧ getCurrentTime (play st d 0 now).2 d now = p := by
  have hjs : jsOr 0 (jsOr deck.currentTime 0) = p := by
    unfold jsOr
    rw [if_pos rfl, hpos, if_neg (ne_of_gt hp)]
  have hplay : play st d 0 now = (true, updateDeck st d fun _ =>
      { deck with
        hasSource := true
        sourceRate := deck.playbackRate
        isPlaying := true
        startTime := now - p }) := by
    simp only [play, hd, hbuf]
    rw [hjs]
  have hd1 : getDeck (play st d 0 now).2 d = some
      { deck with
        hasSource := true
        sourceRate := deck.playbackRate
        isPlaying := true
        startTime := now - p } := by
    rw [hplay, getDeck_updateDeck, hd, Option.map_some']
  refine ⟨by rw [hplay], by rw [hd1, Option.map_some'], ?_⟩
  simp only [getCurrentTime, hd1]
  norm_num

/-- Witness for C9 at the state exStatePaused whose deck a is paused at 7. -/
theorem play_zero_offset_resumes_witness :
    (play exStatePaused "a" 0 20).1 = true
    ∧ (getDeck (play exStatePaused "a" 0 20).2 "a").map Deck.startTime = some (20 - 7)
    ∧ getCurrentTime (play exStatePaused "a" 0 20).2 "a" 20 = 7 :=
  play_zero_offset_resumes exStatePaused "a" exDeckPaused exBuffer 7 20
    (by rfl) (by rfl) (by rfl) (by rfl) (by norm_num)

/-- C1 counterexample: at a concrete playing deck with a live source and a
backward timecode sample, applying DVS control leaves the deck at effective
playback rate 1/2, not the 0.1 crawl the claim states: setPlaybackRate clamps
the requested 0.1 into its range 0.5 to 2.0. -/
theorem applyDVSControl_backward_counterexample :
    (getDeck (applyDVSControl exStateDVS "a" exTimecodeBackward) "a").map Deck.playbackRate
      = some (1/2)
    ∧ ((1 : ℚ)/2) ≠ 1/10 := by
  constructor
  · have hred : applyDVSControl exStateDVS "a" exTimecodeBackward
        = setPlaybackRate (setPlaybackRate exStateDVS "a"
            |exTimecodeBackward.speed *
              (if exTimecodeBackward.direction = "forward" then 1 else -1)|) "a" (1/10) := by
      unfold applyDVSControl
      rw [show getDeck exStateDVS "a" = some exDeckPlaying from rfl]
      simp only [show exDeckPlaying.hasSource = true from rfl]
      rw [if_neg (by decide), if_pos ⟨rfl, rfl⟩]
    obtain ⟨deck1, hdeck1⟩ := setPlaybackRate_isSome exStateDVS "a" exDeckPlaying rfl
      |exTimecodeBackward.speed *
        (if exTimecodeBackward.direction = "forward" then 1 else -1)|
    rw [hred, setPlaybackRate_rate _ "a" deck1 hdeck1 (1/10)]
    norm_num
  · norm_num

/-- C1 amended: for every deck that is playing and has a live source, a
backward timecode sample makes applyDVSControl request the 0.1 crawl through
setPlaybackRate, which clamps it to its lower bound, so the effective
playback rate of the deck becomes 0.5 rather than 0.1 or reverse playback. -/
theorem applyDVSControl_backward_rate (st : AudioSyncState) (deckId : String)
    (deck : Deck) (timecodeData : TimecodeData)
    (hd : getDeck st deckId = some deck) (hsrc : deck.hasSource = true)
    (hplay : deck.isPlaying = true) (hdir : timecodeData.direction = "backward") :
    (getDeck (applyDVSControl st deckId timecodeData) deckId).map Deck.playbackRate
      = some (1/2) := by
  have hred : applyDVSControl st deckId timecodeData
      = setPlaybackRate (setPlaybackRate st deckId
          |timecodeData.speed *
            (if timecodeData.direction = "forward" then 1 else -1)|) deckId (1/10) := by
    unfold applyDVSControl
    rw [hd]
    simp only [hsrc]
    rw [if_neg (by decide), if_pos ⟨hdir, hplay⟩]
  obtain ⟨deck1, hdeck1⟩ := setPlaybackRate_isSome st deckId deck hd
    |timecodeData.speed * (if timecodeData.direction = "forward" then 1 else -1)|
  rw [hred, setPlaybackRate_rate _ deckId deck1 hdeck1 (1/10)]
  norm_num

/-- Witness for the amended C1 at the concrete playing deck exStateDVS. -/
theorem applyDVSControl_backward_rate_witness :
    (getDeck (applyDVSControl exStateDVS "a" exTimecodeBackward) "a").map Deck.playbackRate
      = some (1/2) :=
  applyDVSControl_backward_rate exStateDVS "a" exDeckPlaying exTimecodeBackward
    (by rfl) (by rfl) (by rfl) (by rfl)

/-- C8: a mapped MIDI event whose action is eq with a band parameter among
high, mid and low applies the gain (value - 0.5) * 24 dB to that EQ band of
the target deck (the setEQ clamp is the identity there because a normalized
value in the unit interval yields a gain between -12 and +12 dB); in
particular value 0.5 gives 0 dB, value 1.0 gives +12 dB and value 0.0 gives
-12 dB. -/
theorem applyMIDIMapping_eq_gain (mappings : String → Option MIDIMapping)
    (st : AudioSyncState) (midiEvent : MIDIEvent) (now : ℚ)
    (mapping : MIDIMapping) (deck : Deck) (band : String)
    (hmap : mappings (mappingKey midiEvent.inputId midiEvent.note) = some mapping)
    (haction : mapping.action = "eq") (hparam : mapping.parameter = some band)
    (hband : band = "high" ∨ band = "mid" ∨ band = "low")
    (hdeck : getDeck st mapping.deckId = some deck)
    (hv0 : 0 ≤ midiEvent.value) (hv1 : midiEvent.value ≤ 1) :
    (getDeck (applyMIDIMapping mappings st midiEvent now) mapping.deckId).map
        (fun d => d.eqGain band)
      = some ((midiEvent.value - 1/2) * 24) := by
  have hclamp : max (-40) (min 40 ((midiEvent.value - 1/2) * 24))
      = (midiEvent.value - 1/2) * 24 := by
    rw [min_eq_right (by linarith), max_eq_right (by linarith)]
  have hred : applyMIDIMapping mappings st midiEvent now
      = setEQ st mapping.deckId band ((midiEvent.value - 1/2) * 24) := by
    unfold applyMIDIMapping
    rw [hmap]
    simp [haction, hparam]
  rw [hred]
  rcases hband with rfl | rfl | rfl <;>
    simp [setEQ, hdeck, getDeck_updateDeck, Deck.eqGain]
  all_goals rw [min_eq_right (by linarith), max_eq_right (by linarith)]

/-- Witness for C8: the concrete controller mapping exMapping routes note 16
onto the high band of deck a; an event with maximal normalized value 1 yields
the gain (1 - 0.5) * 24 = +12 dB. -/
theorem applyMIDIMapping_eq_gain_witness :
    (getDeck (applyMIDIMapping exMappings exStateA exMIDIEvent 0) "a").map
        (fun d => d.eqGain "high")
      = some ((1 - 1/2) * 24) :=
  applyMIDIMapping_eq_gain exMappings exStateA exMIDIEvent 0 exMapping
    (initialDeck "a") "high" (by rfl) (by rfl) (by rfl) (Or.inl rfl)
    (by rfl) (by norm_num [exMIDIEvent]) (by norm_num [exMIDIEvent])

/-- C10: every timecode sample the detector emits has quality exactly 100: a
sample is emitted only when the average spectral level exceeds 50, and then
min 100 (avgLevel * 2) is 100 because avgLevel * 2 exceeds 100. -/
theorem timecode_quality_always_100 (freqData : List ℕ) (rand1 rand2 rand3 : ℚ)
    (sample : TimecodeData)
    (h : TimecodeDetector.detect freqData rand1 rand2 rand3 = some sample) :
    sample.quality = 100 := by
  simp only [TimecodeDetector.detect] at h
  by_cases hav : (50 : ℚ) < (freqData.sum : ℚ) / freqData.length
  · rw [if_pos hav] at h
    have hq : (100 : ℚ) ≤ ((freqData.sum : ℚ) / freqData.length) * 2 := by linarith
    cases h
    exact min_eq_left hq
  · rw [if_neg hav] at h
    exact absurd h (by simp)

/-- Witness for C10: the snapshot with two bins at level 60 has average 60,
above the floor 50, and the emitted sample has quality 100. -/
theorem timecode_quality_always_100_witness :
    (TimecodeDetector.detect [60, 60] (1/2) (1/2) (7/10)).map TimecodeData.quality
      = some 100 := by
  have hdet : TimecodeDetector.detect [60, 60] (1/2) (1/2) (7/10)
      = some { position := 500, speed := 1, direction := "forward", quality := 100 } := by
    norm_num [TimecodeDetector.detect]
  conv_lhs => rw [hdet]
  exact congrArg some
    (timecode_quality_always_100 [60, 60] (1/2) (1/2) (7/10) _ hdet)

end NeuralMix
